import Mathlib

/-!
Shallow embedding of `ev-consumption-curve.py`: a single-file calculator that
turns physical parameters of an electric vehicle into a consumption-vs-speed
curve.  Real arithmetic of the source is modelled over `ℚ`; Python's `None`
becomes `Option`, CLI errors become `Except String`.
-/

namespace EvCurve

/-- `air_density(temperature)` from the source: ideal-gas law
`ATMOSPHERIC_PRESSURE / (SPECIFIC_GAS_CONSTANT * (ZERO_CELSIUS_IN_KELVIN + temperature))`. -/
def air_density (temperature : ℚ) : ℚ :=
  101325 / (287.053 * (273.15 + temperature))

/-- `kmh_to_meters_per_second(speed_kmh)` from the source. -/
def kmh_to_meters_per_second (speed_kmh : ℚ) : ℚ :=
  speed_kmh * (1000 / 3600)

/-- The frozen `Vehicle` dataclass of the source (MKS units). -/
structure Vehicle where
  mass : ℚ
  drag_area : ℚ
  drivetrain_efficiency : ℚ
  rolling_resistance_coeff : ℚ
  idle_power : ℚ
  deriving DecidableEq

/-- `Vehicle._rolling_resistance_force`: `rolling_resistance_coeff * (mass * 9.81)`. -/
def Vehicle.rolling_resistance_force (v : Vehicle) : ℚ :=
  v.rolling_resistance_coeff * (v.mass * 9.81)

/-- `Vehicle._air_drag_force(speed, temperature)`:
`0.5 * air_density(temperature) * drag_area * speed ** 2`. -/
def Vehicle.air_drag_force (v : Vehicle) (speed temperature : ℚ) : ℚ :=
  0.5 * air_density temperature * v.drag_area * speed ^ 2

/-- `Vehicle._idle_power_force(speed)`: `idle_power / speed`. -/
def Vehicle.idle_power_force (v : Vehicle) (speed : ℚ) : ℚ :=
  v.idle_power / speed

/-- `Vehicle._total_force(speed, temperature)`:
`(rolling + drag) / drivetrain_efficiency + idle_force`. -/
def Vehicle.total_force (v : Vehicle) (speed temperature : ℚ) : ℚ :=
  (v.rolling_resistance_force + v.air_drag_force speed temperature)
      / v.drivetrain_efficiency
    + v.idle_power_force speed

/-- `Vehicle.consumption_in_kWh_per_100km(speed_kmh, temperature)`:
total force at `speed_ms` times `NEWTON_TO_KWH_100KM = 100 / 3600`. -/
def Vehicle.consumption_in_kWh_per_100km (v : Vehicle) (speed_kmh temperature : ℚ) : ℚ :=
  v.total_force (kmh_to_meters_per_second speed_kmh) temperature * (100 / 3600)

/-- The frozen `Params` dataclass of the source. -/
structure Params where
  vehicle : Vehicle
  temperature : ℚ
  highway_consumption : Option ℚ
  max_speed : ℤ
  deriving DecidableEq

/-- The `check_valid_range` closure produced by `valid_range(min_value, max_value)`
in the source: rejects `value` iff `value < min_value or value > max_value`,
otherwise returns it unchanged. -/
def valid_range (min_value max_value value : ℚ) : Except String ℚ :=
  if value < min_value ∨ value > max_value then
    Except.error "Value must be between the minimum and the maximum."
  else
    Except.ok value

/-- Python truthiness of an optional float: `None` and `0.0` are falsy. -/
def truthyQ : Option ℚ → Bool
  | none => false
  | some x => if x = 0 then false else true

/-- An optional CLI value passes argparse validation when it is absent or
`valid_range` accepts it. -/
def passes_range (min_value max_value : ℚ) : Option ℚ → Bool
  | none => true
  | some v =>
    match valid_range min_value max_value v with
    | Except.ok _ => true
    | Except.error _ => false

/-- The raw command-line options, `none` meaning "not supplied".  Options with
an argparse default are still `Option` here; resolution applies the default. -/
structure Args where
  weight : Option ℚ
  curb_weight : Option ℚ
  drag_area : Option ℚ
  drag_coefficient : Option ℚ
  frontal_area : Option ℚ
  width : Option ℚ
  height : Option ℚ
  rolling_resistance_coefficient : Option ℚ
  drivetrain_efficiency : Option ℚ
  idle_power : Option ℚ
  highway_consumption : Option ℚ
  temperature : Option ℚ
  max_speed : Option ℚ
  deriving DecidableEq

/-- Argparse phase of `parse_params`: every supplied option must pass its
`valid_range` bounds exactly as registered in the source. -/
def validArgs (a : Args) : Bool :=
  passes_range 200 80000 a.weight &&
  passes_range 200 80000 a.curb_weight &&
  passes_range 0.1 4 a.drag_area &&
  passes_range 0.03 5 a.drag_coefficient &&
  passes_range 0.5 8 a.frontal_area &&
  passes_range 0.5 4 a.width &&
  passes_range 0.5 4 a.height &&
  passes_range 0.003 0.05 a.rolling_resistance_coefficient &&
  passes_range 0 1 a.drivetrain_efficiency &&
  passes_range 0 6 a.idle_power &&
  passes_range 50 1000 a.highway_consumption &&
  passes_range (-90) 60 a.temperature &&
  passes_range 20 250 a.max_speed

/-- Python's `int()` on the (exactly represented) float: truncation toward zero. -/
def int_trunc (q : ℚ) : ℤ :=
  q.num.tdiv q.den

/-- The resolution arithmetic of `parse_params` once all checks have passed:
weight from curb weight plus `DEFAULT_LOAD_WEIGHT = 90`, drag-coefficient
default `0.27`, the three drag-area paths, argparse defaults for the remaining
options, idle power converted to Watts, highway consumption converted from
Wh/km to kWh/100km and max speed truncated with `int()`. -/
def buildParams (args : Args) : Params :=
  let weight : ℚ :=
    if truthyQ args.weight then args.weight.getD 0 else args.curb_weight.getD 0 + 90
  let drag_coefficient : ℚ :=
    if truthyQ args.drag_coefficient then args.drag_coefficient.getD 0 else 0.27
  let drag_area : ℚ :=
    if truthyQ args.drag_area then args.drag_area.getD 0
    else if truthyQ args.frontal_area then drag_coefficient * args.frontal_area.getD 0
    else drag_coefficient * (0.8 * args.width.getD 0 * args.height.getD 0)
  { vehicle :=
      { mass := weight
        drag_area := drag_area
        drivetrain_efficiency := args.drivetrain_efficiency.getD 0.9
        rolling_resistance_coeff := args.rolling_resistance_coefficient.getD 0.01
        idle_power := 1000 * args.idle_power.getD 0.5 }
    temperature := args.temperature.getD 20
    highway_consumption := args.highway_consumption.map (fun v => v / 1000 * 100)
    max_speed := int_trunc (args.max_speed.getD 200) }

/-- `parse_params`: argparse range validation, the cross-option error checks in
source order, then the resolution into a `Params`.  Python truthiness (`if not
args.weight`, `if args.drag_area`, ...) is kept via `truthyQ`; the width/height
pairing check uses `is None` in the source, hence `Option.isNone` here. -/
def parse_params (args : Args) : Except String Params :=
  if validArgs args = false then
    Except.error "Value must be between the minimum and the maximum."
  else if (truthyQ args.weight || truthyQ args.curb_weight) = false then
    Except.error "Need either --weight or --curb-weight."
  else if truthyQ args.weight && truthyQ args.curb_weight then
    Except.error "Cannot have both --weight and --curb-weight."
  else if truthyQ args.drag_area &&
      (truthyQ args.drag_coefficient || truthyQ args.frontal_area ||
       truthyQ args.width || truthyQ args.height) then
    Except.error "If --drag-area is given, cannot use --drag-coefficient, --frontal-area, --width, or --height."
  else if truthyQ args.frontal_area && (truthyQ args.width || truthyQ args.height) then
    Except.error "If --frontal-area is given, cannot use --width or --height."
  else if args.width.isNone != args.height.isNone then
    Except.error "Both --width and --height must be given together."
  else if (truthyQ args.drag_area || truthyQ args.frontal_area || truthyQ args.width) = false then
    Except.error "Must specify --drag-area or --frontal-area or --width and --height."
  else
    Except.ok (buildParams args)

/-- The scaling factor computed in `main`: Python's `if params.highway_consumption:`
is truthiness, so `None` and `0.0` both give `1.0`. -/
def scaling_factor (params : Params) : ℚ :=
  if truthyQ params.highway_consumption then
    params.highway_consumption.getD 0
      / params.vehicle.consumption_in_kWh_per_100km 110 23
  else 1

/-- `range(MIN_SPEED, params.max_speed + 1, SPEED_STEP)` with `MIN_SPEED = 10`
and `SPEED_STEP = 10`: the speeds `10, 20, ...` up to `max_speed` inclusive. -/
def sweepSpeeds (max_speed : ℤ) : List ℤ :=
  (List.range (max_speed.toNat / 10)).map (fun i : ℕ => 10 + 10 * (i : ℤ))

/-- The `curve` list comprehension of `main`. -/
def curve (params : Params) : List (ℤ × ℚ) :=
  (sweepSpeeds params.max_speed).map (fun speed =>
    (speed,
      scaling_factor params *
        params.vehicle.consumption_in_kWh_per_100km (speed : ℚ) params.temperature))

/-- End-to-end run (modulo printing): parse, then compute the curve. -/
def run_curve (args : Args) : Except String (List (ℤ × ℚ)) :=
  (parse_params args).map curve

/-- The closed-form consumption formula as written in the specification:
`((Crr*m*9.81 + 0.5*rho(T)*CdA*v_ms^2)/eta + P/v_ms) * (100/3600)` with
`v_ms = v_kmh*(1000/3600)` and `rho(T) = 101325/(287.053*(T + 273.15))`. -/
def spec_consumption_formula (m CdA eta Crr P v_kmh T : ℚ) : ℚ :=
  ((Crr * m * 9.81 + 0.5 * (101325 / (287.053 * (T + 273.15))) * CdA * (v_kmh * (1000 / 3600)) ^ 2)
        / eta
      + P / (v_kmh * (1000 / 3600))) * (100 / 3600)

/-! ## Concrete inputs used by witnesses -/

/-- `--weight=1800 --drag-area=0.5`, everything else defaulted. -/
def argsDA : Args :=
  { weight := some 1800
    curb_weight := none
    drag_area := some 0.5
    drag_coefficient := none
    frontal_area := none
    width := none
    height := none
    rolling_resistance_coefficient := none
    drivetrain_efficiency := none
    idle_power := none
    highway_consumption := none
    temperature := none
    max_speed := none }

/-- `--weight=1800 --drag-coefficient=0.25 --frontal-area=2.0`. -/
def argsCF : Args :=
  { argsDA with drag_area := none, drag_coefficient := some 0.25, frontal_area := some 2 }

/-- `--weight=1800 --drag-coefficient=0.25 --width=2.5 --height=1.0`
(so that `0.8 * width * height = 2.0`). -/
def argsWH : Args :=
  { argsDA with drag_area := none, drag_coefficient := some 0.25,
                width := some 2.5, height := some 1 }

/-- `--curb-weight=1710 --drag-area=0.5`. -/
def argsCW : Args :=
  { argsDA with weight := none, curb_weight := some 1710 }

/-- `--weight=1800 --drag-area=0.5 --highway-consumption=160`. -/
def argsHW : Args :=
  { argsDA with highway_consumption := some 160 }

/-- `--weight=1800 --drag-area=0.5 --drivetrain-efficiency=0.0`. -/
def argsEffZero : Args :=
  { argsDA with drivetrain_efficiency := some 0 }

/-- Resolved parameters of the spec's concrete scenario with a calibration
target of 16 kWh/100km. -/
def paramsCal : Params :=
  { vehicle := ⟨1800, 0.5, 0.9, 0.01, 500⟩
    temperature := 20
    highway_consumption := some 16
    max_speed := 200 }

/-! ## Helper lemmas -/

lemma mem_sweepSpeeds (m s : ℤ) : s ∈ sweepSpeeds m ↔ 10 ≤ s ∧ s ≤ m ∧ s % 10 = 0 := by
  unfold sweepSpeeds
  rw [List.mem_map]
  constructor
  · rintro ⟨i, hi, rfl⟩
    rw [List.mem_range] at hi
    omega
  · rintro ⟨h1, h2, h3⟩
    exact ⟨(s - 10).toNat / 10, List.mem_range.mpr (by omega), by omega⟩

lemma sweepSpeeds_pairwise (m : ℤ) : (sweepSpeeds m).Pairwise (· < ·) := by
  unfold sweepSpeeds
  rw [List.pairwise_map]
  exact (List.pairwise_lt_range _).imp (by omega)

/-- A successful `parse_params` run means every guard of the source passed and
the result is the resolved `buildParams`. -/
lemma parse_params_ok {args : Args} {p : Params} (h : parse_params args = Except.ok p) :
    validArgs args = true ∧
    (truthyQ args.weight || truthyQ args.curb_weight) = true ∧
    (truthyQ args.weight && truthyQ args.curb_weight) = false ∧
    (truthyQ args.drag_area || truthyQ args.frontal_area || truthyQ args.width) = true ∧
    p = buildParams args := by
  unfold parse_params at h
  repeat' split at h
  all_goals
    cases hw : truthyQ args.weight <;>
    cases hda : truthyQ args.drag_area <;>
    cases hfa : truthyQ args.frontal_area <;>
    cases hwd : truthyQ args.width <;>
    simp_all

lemma passes_range_some {lo hi v : ℚ} (h : passes_range lo hi (some v) = true) :
    lo ≤ v ∧ v ≤ hi := by
  simp only [passes_range, valid_range] at h
  by_cases hc : v < lo ∨ v > hi
  · rw [if_pos hc] at h
    simp at h
  · push_neg at hc
    exact hc

lemma validArgs_all {args : Args} (h : validArgs args = true) :
    passes_range 200 80000 args.weight = true ∧
    passes_range 200 80000 args.curb_weight = true ∧
    passes_range 0.1 4 args.drag_area = true ∧
    passes_range 0.03 5 args.drag_coefficient = true ∧
    passes_range 0.5 8 args.frontal_area = true ∧
    passes_range 0.5 4 args.width = true ∧
    passes_range 0.5 4 args.height = true ∧
    passes_range 50 1000 args.highway_consumption = true ∧
    passes_range 20 250 args.max_speed = true := by
  unfold validArgs at h
  simp only [Bool.and_eq_true] at h
  tauto

lemma truthy_of_pos {v : ℚ} (h : 0 < v) : truthyQ (some v) = true := by
  simp [truthyQ, h.ne']

/-! ## Claim theorems -/

/-- C1: for every vehicle, speed `v_kmh > 0` and temperature `T > -273.15` °C,
`consumption_in_kWh_per_100km v_kmh T` equals the closed-form spec formula
`((Crr*m*9.81 + 0.5*rho(T)*CdA*v_ms^2)/eta + P/v_ms) * (100/3600)`, with the
rolling and drag forces divided by the drivetrain efficiency and the idle term
`P/v_ms` added afterwards, undivided. -/
theorem consumption_matches_spec_formula (veh : Vehicle) (v T : ℚ)
    (_hv : 0 < v) (_hT : -273.15 < T) :
    veh.consumption_in_kWh_per_100km v T =
      spec_consumption_formula veh.mass veh.drag_area veh.drivetrain_efficiency
        veh.rolling_resistance_coeff veh.idle_power v T := by
  simp only [Vehicle.consumption_in_kWh_per_100km, Vehicle.total_force,
    Vehicle.rolling_resistance_force, Vehicle.air_drag_force, Vehicle.idle_power_force,
    air_density, kmh_to_meters_per_second, spec_consumption_formula]
  ring

/-- Witness for C1 at the spec's concrete scenario: mass 1800 kg, drag area
0.5 m², efficiency 0.9, rolling resistance 0.01, idle 500 W, 100 km/h, 20 °C. -/
theorem consumption_matches_spec_formula_witness :
    (0:ℚ) < 100 ∧ (-273.15:ℚ) < 20 ∧
      Vehicle.consumption_in_kWh_per_100km ⟨1800, 0.5, 0.9, 0.01, 500⟩ 100 20 =
        spec_consumption_formula 1800 0.5 0.9 0.01 500 100 20 :=
  ⟨by norm_num, by norm_num,
    consumption_matches_spec_formula ⟨1800, 0.5, 0.9, 0.01, 500⟩ 100 20
      (by norm_num) (by norm_num)⟩

/-- C2: the produced curve contains exactly the pairs
`(s, scale * consumption(s, temperature))` for the multiples of 10 between 10
and `max_speed` inclusive, in strictly increasing speed order, and is empty
when `max_speed < 10`.  (`curve` is a pure Lean function, so identical
`Params` trivially yield identical output.) -/
theorem curve_is_ordered_sweep (p : Params) :
    (∀ s c, (s, c) ∈ curve p ↔
      (10 ≤ s ∧ s ≤ p.max_speed ∧ s % 10 = 0 ∧
        c = scaling_factor p * p.vehicle.consumption_in_kWh_per_100km (s : ℚ) p.temperature))
    ∧ (curve p).Pairwise (fun a b => a.1 < b.1)
    ∧ (p.max_speed < 10 → curve p = []) := by
  refine ⟨?_, ?_, ?_⟩
  · intro s c
    rw [curve, List.mem_map]
    constructor
    · rintro ⟨a, ha, hfa⟩
      obtain ⟨rfl, rfl⟩ := Prod.mk.injEq .. ▸ hfa
      have h := (mem_sweepSpeeds _ _).1 ha
      exact ⟨h.1, h.2.1, h.2.2, rfl⟩
    · rintro ⟨h1, h2, h3, rfl⟩
      exact ⟨s, (mem_sweepSpeeds _ _).2 ⟨h1, h2, h3⟩, rfl⟩
  · rw [curve, List.pairwise_map]
    exact (sweepSpeeds_pairwise _).imp (fun h => h)
  · intro h
    have h0 : p.max_speed.toNat / 10 = 0 := by omega
    simp [curve, sweepSpeeds, h0]

/-- Witness for C2: with `max_speed = 5` the sweep is empty. -/
theorem curve_is_ordered_sweep_witness :
    curve { vehicle := ⟨1800, 0.5, 0.9, 0.01, 500⟩, temperature := 20,
            highway_consumption := none, max_speed := 5 } = [] :=
  (curve_is_ordered_sweep _).2.2 (by norm_num)

/-- C5: for valid vehicle configurations (positive mass, drag area and rolling
resistance, efficiency in (0,1], nonnegative idle power), positive speed and
physical temperature, the computed consumption is strictly positive. -/
theorem consumption_positive (veh : Vehicle) (v T : ℚ)
    (hm : 0 < veh.mass) (hd : 0 < veh.drag_area)
    (he : 0 < veh.drivetrain_efficiency) (_he1 : veh.drivetrain_efficiency ≤ 1)
    (hr : 0 < veh.rolling_resistance_coeff) (hp : 0 ≤ veh.idle_power)
    (hv : 0 < v) (hT : -273.15 < T) :
    0 < veh.consumption_in_kWh_per_100km v T := by
  have hK : (0:ℚ) < 273.15 + T := by linarith
  have hρ : 0 < air_density T :=
    div_pos (by norm_num) (mul_pos (by norm_num) hK)
  have hs : 0 < kmh_to_meters_per_second v := by
    unfold kmh_to_meters_per_second; positivity
  unfold Vehicle.consumption_in_kWh_per_100km Vehicle.total_force
    Vehicle.rolling_resistance_force Vehicle.air_drag_force Vehicle.idle_power_force
  have h1 : 0 < veh.rolling_resistance_coeff * (veh.mass * 9.81) := by positivity
  have h2 : 0 < 0.5 * air_density T * veh.drag_area * (kmh_to_meters_per_second v) ^ 2 := by
    positivity
  have h3 : 0 ≤ veh.idle_power / kmh_to_meters_per_second v := by positivity
  exact mul_pos (add_pos_of_pos_of_nonneg (div_pos (add_pos h1 h2) he) h3) (by norm_num)

/-- Witness for C5 at the spec's concrete scenario. -/
theorem consumption_positive_witness :
    0 < Vehicle.consumption_in_kWh_per_100km ⟨1800, 0.5, 0.9, 0.01, 500⟩ 100 20 :=
  consumption_positive ⟨1800, 0.5, 0.9, 0.01, 500⟩ 100 20 (by norm_num) (by norm_num)
    (by norm_num) (by norm_num) (by norm_num) (by norm_num) (by norm_num) (by norm_num)

/-- C9: for a vehicle with positive drag area and efficiency and a fixed
positive speed, consumption strictly decreases as the temperature rises,
because the air density (hence the drag force) strictly decreases while every
other term is temperature-independent. -/
theorem consumption_decreasing_in_temperature (veh : Vehicle) (v T1 T2 : ℚ)
    (hd : 0 < veh.drag_area) (he : 0 < veh.drivetrain_efficiency)
    (hv : 0 < v) (h1 : -273.15 < T1) (h12 : T1 < T2) :
    veh.consumption_in_kWh_per_100km v T2 < veh.consumption_in_kWh_per_100km v T1 := by
  have hK1 : (0:ℚ) < 273.15 + T1 := by linarith
  have hK2 : (0:ℚ) < 273.15 + T2 := by linarith
  have hρ : air_density T2 < air_density T1 := by
    unfold air_density
    exact div_lt_div_of_pos_left (by norm_num) (mul_pos (by norm_num) hK1) (by nlinarith)
  have hs : 0 < kmh_to_meters_per_second v := by
    unfold kmh_to_meters_per_second; positivity
  unfold Vehicle.consumption_in_kWh_per_100km Vehicle.total_force
    Vehicle.rolling_resistance_force Vehicle.air_drag_force Vehicle.idle_power_force
  gcongr

/-- Witness for C9: the spec's concrete vehicle consumes strictly more at 0 °C
than at 20 °C when cruising at 100 km/h. -/
theorem consumption_decreasing_in_temperature_witness :
    Vehicle.consumption_in_kWh_per_100km ⟨1800, 0.5, 0.9, 0.01, 500⟩ 100 20 <
      Vehicle.consumption_in_kWh_per_100km ⟨1800, 0.5, 0.9, 0.01, 500⟩ 100 0 :=
  consumption_decreasing_in_temperature ⟨1800, 0.5, 0.9, 0.01, 500⟩ 100 0 20
    (by norm_num) (by norm_num) (by norm_num) (by norm_num) (by norm_num)

/-- C3: when parsing succeeds, a supplied highway-consumption target `t` (in
Wh/km) is stored as `t/1000*100` kWh/100km and the sweep's scale factor equals
that converted target divided by the model queried at 110 km/h and 23 °C
(regardless of the user temperature, which does not appear); without a target
the scale factor is `1`. -/
theorem calibration_scale_factor (args : Args) (p : Params)
    (h : parse_params args = Except.ok p) :
    (∀ t, args.highway_consumption = some t →
      p.highway_consumption = some (t / 1000 * 100) ∧
      scaling_factor p = (t / 1000 * 100) / p.vehicle.consumption_in_kWh_per_100km 110 23)
    ∧ (args.highway_consumption = none →
      p.highway_consumption = none ∧ scaling_factor p = 1) := by
  obtain ⟨hva, -, -, -, rfl⟩ := parse_params_ok h
  constructor
  · intro t ht
    have hpr := (validArgs_all hva).2.2.2.2.2.2.2.1
    rw [ht] at hpr
    have h50 := (passes_range_some hpr).1
    have hhc : (buildParams args).highway_consumption = some (t / 1000 * 100) := by
      simp [buildParams, ht]
    have ht0 : (0:ℚ) < t := by linarith
    have hne : (t / 1000 * 100 : ℚ) ≠ 0 := by positivity
    refine ⟨hhc, ?_⟩
    simp [scaling_factor, hhc, truthyQ, hne]
  · intro ht
    have hhc : (buildParams args).highway_consumption = none := by simp [buildParams, ht]
    exact ⟨hhc, by simp [scaling_factor, hhc, truthyQ]⟩

/-- Witness for C3: `--highway-consumption=160` becomes 16 kWh/100km and the
scale factor is 16 divided by the model's value at 110 km/h, 23 °C. -/
theorem calibration_scale_factor_witness :
    (buildParams argsHW).highway_consumption = some (160 / 1000 * 100) ∧
    scaling_factor (buildParams argsHW) =
      (160 / 1000 * 100) / (buildParams argsHW).vehicle.consumption_in_kWh_per_100km 110 23 :=
  (calibration_scale_factor argsHW (buildParams argsHW)
      (by norm_num [parse_params, validArgs, passes_range, valid_range, truthyQ, argsHW,
        argsDA])).1 160 rfl

/-- C4 (code bug): the drivetrain-efficiency validator is
`valid_range(0.0, 1.0)` whose check `value < min or value > max` accepts the
value `0.0`, so `parse_params` succeeds on `--drivetrain-efficiency=0.0` and
builds a vehicle with zero efficiency — the division by the efficiency inside
the consumption model is then a division by zero, contradicting the claimed
invariant that validation only accepts values in (0, 1]. -/
theorem drivetrain_efficiency_zero_accepted :
    valid_range 0 1 0 = Except.ok 0
    ∧ passes_range 0 1 (some 0) = true
    ∧ parse_params argsEffZero = Except.ok (buildParams argsEffZero)
    ∧ (buildParams argsEffZero).vehicle.drivetrain_efficiency = 0 := by
  refine ⟨by norm_num [valid_range], by norm_num [passes_range, valid_range], ?_, ?_⟩
  · norm_num [parse_params, validArgs, passes_range, valid_range, truthyQ, argsEffZero, argsDA]
  · norm_num [buildParams, truthyQ, argsEffZero, argsDA]

/-- C6: supplying both weight and curb weight is an error, supplying neither is
an error, a lone curb weight resolves to mass `curb + 90`, and replacing a curb
weight `c` by an explicit weight `c + 90` leaves the parse result — and hence
the output curve — unchanged. -/
theorem weight_resolution (args : Args) (c : ℚ)
    (hw : args.weight = none) (hc : args.curb_weight = some c)
    (h200 : 200 ≤ c) (h8 : c + 90 ≤ 80000) :
    (∀ p, parse_params args = Except.ok p → p.vehicle.mass = c + 90)
    ∧ parse_params { args with weight := some (c + 90), curb_weight := none } = parse_params args
    ∧ run_curve { args with weight := some (c + 90), curb_weight := none } = run_curve args
    ∧ (∀ a : Args, truthyQ a.weight = true → truthyQ a.curb_weight = true →
        ∃ e, parse_params a = Except.error e)
    ∧ (∀ a : Args, truthyQ a.weight = false → truthyQ a.curb_weight = false →
        ∃ e, parse_params a = Except.error e) := by
  have hcne : (c:ℚ) ≠ 0 := by linarith
  have hc9ne : (c + 90:ℚ) ≠ 0 := by linarith
  have hrc : ¬((c:ℚ) < 200 ∨ (c:ℚ) > 80000) := by push_neg; exact ⟨h200, by linarith⟩
  have hrc9 : ¬((c + 90:ℚ) < 200 ∨ (c + 90:ℚ) > 80000) := by push_neg; exact ⟨by linarith, h8⟩
  have hEq : parse_params { args with weight := some (c + 90), curb_weight := none }
      = parse_params args := by
    unfold parse_params validArgs buildParams
    simp [truthyQ, passes_range, valid_range, hw, hc, hcne, hc9ne, hrc, hrc9]
  refine ⟨?_, hEq, by rw [run_curve, run_curve, hEq], ?_, ?_⟩
  · intro p hp
    obtain ⟨-, -, -, -, rfl⟩ := parse_params_ok hp
    simp [buildParams, hw, hc, truthyQ, hcne]
  · intro a haw hac
    unfold parse_params
    rcases hv : validArgs a with _ | _
    · simp
    · simp [haw, hac]
  · intro a haw hac
    unfold parse_params
    rcases hv : validArgs a with _ | _
    · simp
    · simp [haw, hac]

/-- Witness for C6: `--curb-weight=1710` parses identically to
`--weight=1800`. -/
theorem weight_resolution_witness :
    parse_params { argsCW with weight := some (1710 + 90), curb_weight := none }
      = parse_params argsCW :=
  (weight_resolution argsCW 1710 rfl rfl (by norm_num) (by norm_num)).2.1

/-- C7: the three mutually exclusive drag-area paths resolve as
`drag_area`, `drag_coefficient * frontal_area` and
`drag_coefficient * (0.8 * width * height)`, with the default coefficient 0.27
when it is omitted; with none of the three paths supplied parsing errors out;
and the three concrete inputs `drag_area=0.5`, `drag_coefficient=0.25` with
`frontal_area=2.0`, and `drag_coefficient=0.25` with `width=2.5, height=1.0`
produce identical output curves. -/
theorem drag_area_resolution :
    (∀ (args : Args) (p : Params) (d : ℚ), parse_params args = Except.ok p →
        args.drag_area = some d → p.vehicle.drag_area = d)
    ∧ (∀ (args : Args) (p : Params) (cd f : ℚ), parse_params args = Except.ok p →
        args.drag_area = none → args.drag_coefficient = some cd → args.frontal_area = some f →
        p.vehicle.drag_area = cd * f)
    ∧ (∀ (args : Args) (p : Params) (cd w ht : ℚ), parse_params args = Except.ok p →
        args.drag_area = none → args.drag_coefficient = some cd →
        args.frontal_area = none → args.width = some w → args.height = some ht →
        p.vehicle.drag_area = cd * (0.8 * w * ht))
    ∧ (∀ (args : Args) (p : Params) (f : ℚ), parse_params args = Except.ok p →
        args.drag_area = none → args.drag_coefficient = none → args.frontal_area = some f →
        p.vehicle.drag_area = 0.27 * f)
    ∧ (∀ (args : Args) (p : Params) (w ht : ℚ), parse_params args = Except.ok p →
        args.drag_area = none → args.drag_coefficient = none →
        args.frontal_area = none → args.width = some w → args.height = some ht →
        p.vehicle.drag_area = 0.27 * (0.8 * w * ht))
    ∧ (∀ args : Args, truthyQ args.drag_area = false → truthyQ args.frontal_area = false →
        truthyQ args.width = false → ∃ e, parse_params args = Except.error e)
    ∧ run_curve argsDA = run_curve argsCF ∧ run_curve argsCF = run_curve argsWH := by
  refine ⟨?_, ?_, ?_, ?_, ?_, ?_, ?_, ?_⟩
  · intro args p d h hda
    obtain ⟨hva, -, -, -, rfl⟩ := parse_params_ok h
    have hd := passes_range_some (hda ▸ (validArgs_all hva).2.2.1)
    have hd0 : d ≠ 0 := by intro h0; rw [h0] at hd; norm_num at hd
    simp [buildParams, truthyQ, hda, hd0]
  · intro args p cd f h h0 hcd hf
    obtain ⟨hva, -, -, -, rfl⟩ := parse_params_ok h
    have hcdr := passes_range_some (hcd ▸ (validArgs_all hva).2.2.2.1)
    have hfr := passes_range_some (hf ▸ (validArgs_all hva).2.2.2.2.1)
    have hcd0 : cd ≠ 0 := by intro hx; rw [hx] at hcdr; norm_num at hcdr
    have hf0 : f ≠ 0 := by intro hx; rw [hx] at hfr; norm_num at hfr
    simp [buildParams, truthyQ, h0, hcd, hf, hcd0, hf0]
  · intro args p cd w ht h h0 hcd hf hwd hht
    obtain ⟨hva, -, -, -, rfl⟩ := parse_params_ok h
    have hcdr := passes_range_some (hcd ▸ (validArgs_all hva).2.2.2.1)
    have hcd0 : cd ≠ 0 := by intro hx; rw [hx] at hcdr; norm_num at hcdr
    simp [buildParams, truthyQ, h0, hcd, hf, hwd, hht, hcd0]
  · intro args p f h h0 hcd hf
    obtain ⟨hva, -, -, -, rfl⟩ := parse_params_ok h
    have hfr := passes_range_some (hf ▸ (validArgs_all hva).2.2.2.2.1)
    have hf0 : f ≠ 0 := by intro hx; rw [hx] at hfr; norm_num at hfr
    simp [buildParams, truthyQ, h0, hcd, hf, hf0]
  · intro args p w ht h h0 hcd hf hwd hht
    obtain ⟨-, -, -, -, rfl⟩ := parse_params_ok h
    simp [buildParams, truthyQ, h0, hcd, hf, hwd, hht]
  · intro args h1 h2 h3
    unfold parse_params
    rcases hv : validArgs args with _ | _
    · simp
    · rcases hw : truthyQ args.weight <;> rcases hc : truthyQ args.curb_weight <;>
        rcases hwh : args.width.isNone != args.height.isNone <;>
        simp [h1, h2, h3, hw, hc, hwh]
  · norm_num [run_curve, parse_params, validArgs, passes_range, valid_range, truthyQ,
      buildParams, argsDA, argsCF]
  · norm_num [run_curve, parse_params, validArgs, passes_range, valid_range, truthyQ,
      buildParams, argsDA, argsCF, argsWH]

/-- Witness for C7: the explicit `--drag-area=0.5` input resolves to a vehicle
with drag area 0.5. -/
theorem drag_area_resolution_witness :
    (buildParams argsDA).vehicle.drag_area = 0.5 :=
  drag_area_resolution.1 argsDA (buildParams argsDA) 0.5
    (by norm_num [parse_params, validArgs, passes_range, valid_range, truthyQ, argsDA]) rfl

/-- C8: scaling the calibration target by `k > 0` scales every consumption
value of the sweep by `k`, and a target exactly equal to the uncalibrated
`consumption(110, 23)` gives a scale factor of exactly 1 and the unscaled
curve. -/
theorem calibration_linear_scaling (p : Params) (t k : ℚ)
    (ht : p.highway_consumption = some t) (ht0 : t ≠ 0) (hk : 0 < k) :
    curve { p with highway_consumption := some (k * t) } =
      (curve p).map (fun sc => (sc.1, k * sc.2))
    ∧ (t = p.vehicle.consumption_in_kWh_per_100km 110 23 →
        scaling_factor p = 1 ∧ curve p = curve { p with highway_consumption := none }) := by
  have hkt : k * t ≠ 0 := mul_ne_zero hk.ne' ht0
  constructor
  · unfold curve
    rw [List.map_map]
    congr 1
    funext s
    simp only [Function.comp, scaling_factor, truthyQ, ht]
    simp [hkt, ht0]
    ring
  · intro hC
    have hCne : p.vehicle.consumption_in_kWh_per_100km 110 23 ≠ 0 := hC ▸ ht0
    have hscale : scaling_factor p = 1 := by
      simp [scaling_factor, truthyQ, ht, ht0, hC, div_self hCne]
    have hs2 : scaling_factor { p with highway_consumption := none } = 1 := by
      simp [scaling_factor, truthyQ]
    refine ⟨hscale, ?_⟩
    unfold curve
    simp [hscale, hs2]

/-- Witness for C8: doubling the 16 kWh/100km target doubles every value of
the concrete curve. -/
theorem calibration_linear_scaling_witness :
    curve { paramsCal with highway_consumption := some (2 * 16) } =
      (curve paramsCal).map (fun sc => (sc.1, 2 * sc.2)) :=
  (calibration_linear_scaling paramsCal 16 2 rfl (by norm_num) (by norm_num)).1

/-- C10: the max-speed option accepts every rational in [20, 250] (validation
happens on that value), the resolver truncates it toward zero, and concretely
199.9 passes validation, truncates to 199 and makes the sweep end at 190. -/
theorem max_speed_truncation :
    (∀ q : ℚ, 20 ≤ q → q ≤ 250 → valid_range 20 250 q = Except.ok q)
    ∧ (∀ (args : Args) (p : Params) (q : ℚ), parse_params args = Except.ok p →
        args.max_speed = some q → p.max_speed = int_trunc q)
    ∧ valid_range 20 250 (1999/10 : ℚ) = Except.ok (1999/10 : ℚ)
    ∧ int_trunc (1999/10 : ℚ) = 199
    ∧ (sweepSpeeds 199).getLast? = some 190 := by
  refine ⟨?_, ?_, ?_, ?_, ?_⟩
  · intro q h1 h2
    unfold valid_range
    rw [if_neg]
    push_neg
    exact ⟨h1, h2⟩
  · intro args p q h hq
    obtain ⟨-, -, -, -, rfl⟩ := parse_params_ok h
    simp [buildParams, hq]
  · norm_num [valid_range]
  · have hn : ((1999:ℚ)/10).num = 1999 := by norm_num
    have hd : ((1999:ℚ)/10).den = 10 := by norm_num
    rw [int_trunc, hn, hd]
    decide
  · decide

/-- Witness for C10: the in-range value 23 passes the max-speed validator. -/
theorem max_speed_truncation_witness :
    valid_range 20 250 23 = Except.ok 23 :=
  max_speed_truncation.1 23 (by norm_num) (by norm_num)

end EvCurve
